import Mathlib

/-!
Verification of the Titta stream-buffer subsystem.

The repository sources at hand are the two MATLAB MEX wrapper translation
units (`TittaMex_.cpp` and `TobiiBuffer_matlab.cpp`).  They contain the
action dispatch (`mexFunction`) and the marshaling helpers
(`eyeImagesToMatlab`, `ToMatlab(Titta::notification)`), which are embedded
below directly from the source.  The `Titta` class itself (the per-stream
buffer with `append`/`consumeN`/`consumeTimeRange`/`peekN`/`peekTimeRange`,
the session registry, and the token parser `stringToBufferSide`) is declared
and called from these files but its implementation is not among the sources;
those parts are modelled from the specification, as marked on each
definition.
-/

/-- A sample record.  Only identity and the device timestamp matter for the
buffer-level properties: `id` tracks record identity across operations and
`device_time_stamp` is the signed 64-bit tracker-clock tick used by
time-range queries (modelled as `Int`). -/
structure Sample where
  id : Nat
  device_time_stamp : Int
deriving DecidableEq, Repr

/-- Which end of the buffer an N-count operation reads from.  `first` is the
front/oldest end (the default), `last` the back/newest end. -/
inductive BufferSide where
  | first
  | last
deriving DecidableEq, Repr

/-- Modelled from the spec: the Stream Buffer (`Titta`'s per-stream sample
store; implementation not among the sources).  It owns an insertion-ordered
sequence of records (head = oldest/front) and may be capacity-bounded:
`maxSize = some cap` bounds it to `cap` records, `none` is unbounded. -/
structure StreamBuffer where
  maxSize : Option Nat
  buf : List Sample
deriving DecidableEq, Repr

/-- Modelled from the spec: `append(record)` always succeeds; if the buffer
is capacity-bounded and at capacity it first evicts the front (oldest)
record, then appends the new record at the back — never dropping the
newest. -/
def StreamBuffer.append (b : StreamBuffer) (r : Sample) : StreamBuffer :=
  match b.maxSize with
  | none => { b with buf := b.buf ++ [r] }
  | some cap =>
      if cap ≤ b.buf.length then
        { b with buf := b.buf.tail ++ [r] }
      else
        { b with buf := b.buf ++ [r] }

/-- Modelled from the spec: `consumeN(n, side)` removes and returns up to
`n` records (all records when `n` is absent) taken from the requested side
(front/oldest-first when `side` is absent); it never errors on insufficient
count — it returns as many as available. -/
def StreamBuffer.consumeN (b : StreamBuffer) (n : Option Nat)
    (side : Option BufferSide) : List Sample × StreamBuffer :=
  let k := match n with
    | none => b.buf.length
    | some k => min k b.buf.length
  match side.getD BufferSide.first with
  | BufferSide.first =>
      (b.buf.take k, { b with buf := b.buf.drop k })
  | BufferSide.last =>
      (b.buf.drop (b.buf.length - k), { b with buf := b.buf.take (b.buf.length - k) })

/-- Modelled from the spec: `peekN(n, side)` has selection semantics
identical to `consumeN` but is non-destructive — records remain in the
buffer. -/
def StreamBuffer.peekN (b : StreamBuffer) (n : Option Nat)
    (side : Option BufferSide) : List Sample :=
  let k := match n with
    | none => b.buf.length
    | some k => min k b.buf.length
  match side.getD BufferSide.first with
  | BufferSide.first => b.buf.take k
  | BufferSide.last => b.buf.drop (b.buf.length - k)

/-- Whether a record's `device_time_stamp` lies in the inclusive range
`[ts, te]`; an absent bound is unbounded on that side. -/
def inTimeRange (ts te : Option Int) (r : Sample) : Bool :=
  (match ts with
   | none => true
   | some a => decide (a ≤ r.device_time_stamp)) &&
  (match te with
   | none => true
   | some c => decide (r.device_time_stamp ≤ c))

/-- Modelled from the spec: `consumeTimeRange(start, end)` removes and
returns all records whose `device_time_stamp` lies in the inclusive range
(absent bound = unbounded on that side); records strictly outside the range
are retained, order preserved. -/
def StreamBuffer.consumeTimeRange (b : StreamBuffer) (ts te : Option Int) :
    List Sample × StreamBuffer :=
  (b.buf.filter (inTimeRange ts te),
   { b with buf := b.buf.filter (fun r => !inTimeRange ts te r) })

/-- Modelled from the spec: `peekTimeRange(start, end)` has selection
semantics identical to `consumeTimeRange` but is non-destructive. -/
def StreamBuffer.peekTimeRange (b : StreamBuffer) (ts te : Option Int) :
    List Sample :=
  b.buf.filter (inTimeRange ts te)

/-- Modelled from the spec: `clear()` removes all records. -/
def StreamBuffer.clear (b : StreamBuffer) : StreamBuffer :=
  { b with buf := [] }

/-! ## Operation traces over one Stream Buffer -/

/-- One operation of an interleaved append/consume trace on a single
Stream Buffer. -/
inductive BufOp where
  | append (r : Sample)
  | consumeN (n : Option Nat) (side : Option BufferSide)
  | consumeTimeRange (ts te : Option Int)
deriving DecidableEq, Repr

/-- State of a trace run: the current buffer plus the batches returned by
the consume calls issued so far, in call order. -/
structure RunState where
  buf : StreamBuffer
  out : List (List Sample)
deriving DecidableEq, Repr

/-- Execute one trace operation. -/
def stepOp (s : RunState) : BufOp → RunState
  | BufOp.append r => { s with buf := s.buf.append r }
  | BufOp.consumeN n side =>
      let res := s.buf.consumeN n side
      { buf := res.2, out := s.out ++ [res.1] }
  | BufOp.consumeTimeRange ts te =>
      let res := s.buf.consumeTimeRange ts te
      { buf := res.2, out := s.out ++ [res.1] }

/-- Execute a trace of operations from a starting state. -/
def runOps (s : RunState) (ops : List BufOp) : RunState :=
  ops.foldl stepOp s

/-- The records appended by a trace, in order. -/
def appendedRecs : List BufOp → List Sample
  | [] => []
  | BufOp.append r :: rest => r :: appendedRecs rest
  | BufOp.consumeN _ _ :: rest => appendedRecs rest
  | BufOp.consumeTimeRange _ _ :: rest => appendedRecs rest

/-! ## Stream registry (session) and the MEX action dispatch -/

/-- The stream kinds, as in `Titta::DataStream` (the `switch` statements of
`mexFunction` in `TittaMex_.cpp` enumerate exactly these cases). -/
inductive DataStream where
  | gaze
  | eyeOpenness
  | eyeImage
  | extSignal
  | timeSync
  | positioning
  | notificationStream
deriving DecidableEq, Repr

/-- The error outcomes of the stream query actions relevant here.
`timeRangeOnPositioning` is the `"not supported for positioning stream."`
throw of `mexFunction`; the others are the spec's error taxonomy for the
parts of `Titta` not among the sources. -/
inductive TittaError where
  | streamNotStarted
  | unknownBufferSide
  | timeRangeOnPositioning
deriving DecidableEq, Repr

/-- Modelled from the spec: `Titta::stringToBufferSide` (implementation not
among the sources).  The buffer-side tokens are exactly `first` and `last`;
an unrecognized token fails with `UnknownBufferSide`. -/
def stringToBufferSide (s : String) : Except TittaError BufferSide :=
  if s = "first" then Except.ok BufferSide.first
  else if s = "last" then Except.ok BufferSide.last
  else Except.error TittaError.unknownBufferSide

/-- Modelled from the spec: the Stream Registry state of one tracker
session — zero-or-one Stream Buffer per stream kind (`none` = never
started, or discarded), plus whether the hardware subscription for the kind
is currently active. -/
structure Session where
  buffers : DataStream → Option StreamBuffer
  recording : DataStream → Bool

/-- A session on which no stream was ever started. -/
def freshSession : Session :=
  { buffers := fun _ => none, recording := fun _ => false }

/-- Modelled from the spec: `start(kind, bufferSizeHint)` — idempotent by
kind (a second `start` while subscribed is a no-op); otherwise it subscribes
and allocates the Stream Buffer, bounded to the hint when given.  Hardware
support (`hasStream`) is assumed for all kinds here. -/
def Session.start (s : Session) (ds : DataStream) (bufSize : Option Nat) :
    Session :=
  if s.recording ds then s
  else
    { buffers := fun d =>
        if d = ds then some { maxSize := bufSize, buf := [] } else s.buffers d,
      recording := fun d => if d = ds then true else s.recording d }

/-- Modelled from the spec: `stop(kind, clearBufferAlso)` cancels the
subscription; the buffer is retained (so that later queries on a
stopped-but-previously-started stream return empty rather than erroring),
with its contents cleared when `clearBufferAlso` is true. -/
def Session.stop (s : Session) (ds : DataStream) (clearAlso : Option Bool) :
    Session :=
  { buffers := fun d =>
      if d = ds then
        if clearAlso.getD false then (s.buffers d).map StreamBuffer.clear
        else s.buffers d
      else s.buffers d,
    recording := fun d => if d = ds then false else s.recording d }

/-- Modelled from the spec: registry-level `consumeN(kind, n, side)` —
dispatch to the kind's buffer, failing with `StreamNotStarted` when no
buffer exists for that kind. -/
def Session.consumeN (s : Session) (ds : DataStream) (n : Option Nat)
    (side : Option BufferSide) : Except TittaError (List Sample × Session) :=
  match s.buffers ds with
  | none => Except.error TittaError.streamNotStarted
  | some b =>
      let res := b.consumeN n side
      Except.ok (res.1,
        { s with buffers := fun d => if d = ds then some res.2 else s.buffers d })

/-- Modelled from the spec: registry-level `peekN(kind, n, side)` —
non-destructive dispatch, failing with `StreamNotStarted` when no buffer
exists for that kind. -/
def Session.peekN (s : Session) (ds : DataStream) (n : Option Nat)
    (side : Option BufferSide) : Except TittaError (List Sample) :=
  match s.buffers ds with
  | none => Except.error TittaError.streamNotStarted
  | some b => Except.ok (b.peekN n side)

/-- Modelled from the spec: registry-level `consumeTimeRange(kind, start,
end)`. -/
def Session.consumeTimeRange (s : Session) (ds : DataStream)
    (ts te : Option Int) : Except TittaError (List Sample × Session) :=
  match s.buffers ds with
  | none => Except.error TittaError.streamNotStarted
  | some b =>
      let res := b.consumeTimeRange ts te
      Except.ok (res.1,
        { s with buffers := fun d => if d = ds then some res.2 else s.buffers d })

/-- Modelled from the spec: registry-level `peekTimeRange(kind, start,
end)`. -/
def Session.peekTimeRange (s : Session) (ds : DataStream)
    (ts te : Option Int) : Except TittaError (List Sample) :=
  match s.buffers ds with
  | none => Except.error TittaError.streamNotStarted
  | some b => Except.ok (b.peekTimeRange ts te)

/-- The `Action::ConsumeN` handler of `mexFunction` (`TittaMex_.cpp`): the
optional side token is parsed with `stringToBufferSide` before any buffer
is touched (a parse failure throws, leaving all state unchanged), then
every stream kind — `positioning` included — is dispatched to
`consumeN`. -/
def mexConsumeN (s : Session) (ds : DataStream) (n : Option Nat)
    (sideStr : Option String) : Except TittaError (List Sample × Session) :=
  match sideStr with
  | none => s.consumeN ds n none
  | some str =>
      match stringToBufferSide str with
      | Except.error e => Except.error e
      | Except.ok sd => s.consumeN ds n (some sd)

/-- The `Action::PeekN` handler of `mexFunction` (`TittaMex_.cpp`): same
side-token parse, then every stream kind — `positioning` included — is
dispatched to `peekN`. -/
def mexPeekN (s : Session) (ds : DataStream) (n : Option Nat)
    (sideStr : Option String) : Except TittaError (List Sample) :=
  match sideStr with
  | none => s.peekN ds n none
  | some str =>
      match stringToBufferSide str with
      | Except.error e => Except.error e
      | Except.ok sd => s.peekN ds n (some sd)

/-- The `Action::ConsumeTimeRange` handler of `mexFunction`
(`TittaMex_.cpp`): the `positioning` case throws
`"consumeTimeRange: not supported for positioning stream."`; every other
kind is dispatched to `consumeTimeRange`. -/
def mexConsumeTimeRange (s : Session) (ds : DataStream) (ts te : Option Int) :
    Except TittaError (List Sample × Session) :=
  match ds with
  | DataStream.positioning => Except.error TittaError.timeRangeOnPositioning
  | _ => s.consumeTimeRange ds ts te

/-- The `Action::PeekTimeRange` handler of `mexFunction` (`TittaMex_.cpp`):
the `positioning` case throws
`"peekTimeRange: not supported for positioning stream."`; every other kind
is dispatched to `peekTimeRange`. -/
def mexPeekTimeRange (s : Session) (ds : DataStream) (ts te : Option Int) :
    Except TittaError (List Sample) :=
  match ds with
  | DataStream.positioning => Except.error TittaError.timeRangeOnPositioning
  | _ => s.peekTimeRange ds ts te

/-! ## Eye-image marshaling (`eyeImagesToMatlab`, embedded from the source)

Both `TittaMex_.cpp` and `TobiiBuffer_matlab.cpp` contain the same helper:
if all frames of a non-empty batch share one `data_size`, the frames are
copied into a single `width*height × n` matrix at consecutive offsets
`i*data_size`; otherwise each frame becomes its own cell-array entry.  If
the first frame's `bits_per_pixel + padding_per_pixel` differs from 8 the
helper throws before producing any image data. -/

/-- An eye-image frame as `eyeImagesToMatlab` reads it: pixel bytes, their
declared byte count `data_size`, dimensions, and pixel format. -/
structure EyeImage where
  bits_per_pixel : Nat
  padding_per_pixel : Nat
  width : Nat
  height : Nat
  data_size : Nat
  imgData : List Nat
deriving DecidableEq, Repr

/-- The bytes `memcpy` reads from one frame: `data_size` bytes starting at
`frame.data()`. -/
def EyeImage.copiedBytes (f : EyeImage) : List Nat :=
  f.imgData.take f.data_size

/-- The possible results of `eyeImagesToMatlab`: the empty `0×0` double
matrix for an empty batch, one packed `rows × cols` uint8 matrix (column-
major bytes, one frame per column), or a cell array of per-frame byte
blobs. -/
inductive ImageOut where
  | emptyMatrix
  | packedMatrix (rows cols : Nat) (bytes : List Nat)
  | cellBlobs (blobs : List (List Nat))
deriving DecidableEq, Repr

/-- `eyeImagesToMatlab` from the source: empty batch → empty matrix;
otherwise throw when the first frame is not 8 bits per pixel
(`bits_per_pixel + padding_per_pixel != 8`); else if every frame's
`data_size` equals the first frame's, copy all frames contiguously into one
`width*height × n` matrix (frame `i` at byte offset `i * data_size`), else
return one independently-sized blob per frame, batch order preserved. -/
def eyeImagesToMatlab (data : List EyeImage) : Except String ImageOut :=
  match data with
  | [] => Except.ok ImageOut.emptyMatrix
  | d0 :: _ =>
      let sz := d0.data_size
      let same := data.all (fun f => f.data_size = sz)
      if d0.bits_per_pixel + d0.padding_per_pixel ≠ 8 then
        Except.error "Titta: eyeImagesToMatlab: non-8bit images not implemented"
      else if same then
        Except.ok (ImageOut.packedMatrix (d0.width * d0.height) data.length
          ((data.map EyeImage.copiedBytes).flatten))
      else
        Except.ok (ImageOut.cellBlobs (data.map EyeImage.copiedBytes))

/-! ## Notification marshaling (`ToMatlab(Titta::notification)`, embedded
from the source) -/

/-- A `Titta::notification` record as the marshaler reads it: timestamp, a
notification type tag, and the three optional payloads.  The payload value
types are parameters — only which payload is populated matters here. -/
structure Notification (α β γ : Type) where
  system_time_stamp : Int
  notification_type : Nat
  output_frequency : Option α
  display_area : Option β
  errors_or_warnings : Option γ

/-- How many of the three optional payloads of a notification are
populated. -/
def Notification.payloadCount (n : Notification α β γ) : Nat :=
  (if n.output_frequency.isSome then 1 else 0) +
  (if n.display_area.isSome then 1 else 0) +
  (if n.errors_or_warnings.isSome then 1 else 0)

/-- The `value` field the marshaler writes: empty, or the contents of
exactly one payload. -/
inductive NotificationValue (α β γ : Type) where
  | emptyValue
  | outputFrequency (v : α)
  | displayArea (v : β)
  | errorsOrWarnings (v : γ)
deriving DecidableEq

/-- The `value`-field branch of `ToMatlab(Titta::notification)` in
`TittaMex_.cpp`: `if hasOutputFrequency … else if hasDisplayArea … else if
hasErrorsOrWarnings …`, and when none is populated the field is left unset
(an empty double). -/
def marshalNotificationValue (n : Notification α β γ) :
    NotificationValue α β γ :=
  match n.output_frequency with
  | some v => NotificationValue.outputFrequency v
  | none =>
      match n.display_area with
      | some v => NotificationValue.displayArea v
      | none =>
          match n.errors_or_warnings with
          | some v => NotificationValue.errorsOrWarnings v
          | none => NotificationValue.emptyValue

/-- The payload carried by a notification, as a tagged union. -/
inductive NotificationPayload (α β γ : Type) where
  | noPayload
  | outputFrequency (v : α)
  | displayArea (v : β)
  | errorsOrWarnings (v : γ)
deriving DecidableEq

/-- Modelled from the spec: construction of a `Titta::notification` record
(the notification callback is not among the sources).  The record carries a
discriminated union of at most one optional payload selected by the
notification's type tag, so exactly the optional matching the payload is
populated. -/
def mkNotification (ts : Int) (tag : Nat) (p : NotificationPayload α β γ) :
    Notification α β γ :=
  match p with
  | NotificationPayload.noPayload => ⟨ts, tag, none, none, none⟩
  | NotificationPayload.outputFrequency v => ⟨ts, tag, some v, none, none⟩
  | NotificationPayload.displayArea v => ⟨ts, tag, none, some v, none⟩
  | NotificationPayload.errorsOrWarnings v => ⟨ts, tag, none, none, some v⟩

/-! ## Theorems -/

/-- C2: a capacity-bounded Stream Buffer of size 2, after appending three
records A, B, C in order, answers `consumeN(absent)` with exactly [B, C]
and is left empty: when full, append evicts the oldest (front) record to
admit the new one, never dropping the newest. -/
theorem consumeN_after_bounded_appends_returns_newest :
    ((((StreamBuffer.mk (some 2) []).append ⟨0, 100⟩).append
        ⟨1, 200⟩).append ⟨2, 300⟩).consumeN none none
      = ([⟨1, 200⟩, ⟨2, 300⟩], StreamBuffer.mk (some 2) []) := by
  decide

/-- C3: for every buffer state, count and side, `peekN` returns exactly the
record sequence that `consumeN` with the same arguments would return — peek
is a non-destructive preview of consume. -/
theorem peekN_eq_consumeN_fst (b : StreamBuffer) (n : Option Nat)
    (side : Option BufferSide) :
    b.peekN n side = (b.consumeN n side).1 := by
  cases hsd : side.getD BufferSide.first <;>
    simp [StreamBuffer.peekN, StreamBuffer.consumeN, hsd]

/-- C6: `consumeN` with count 0 returns the empty sequence and leaves the
buffer unchanged, and `consumeN` with the count absent removes and returns
every record currently in the buffer, for either buffer side. -/
theorem consumeN_zero_and_absent (b : StreamBuffer) (side : Option BufferSide) :
    b.consumeN (some 0) side = ([], b) ∧
    b.consumeN none side = (b.buf, { b with buf := [] }) := by
  cases hsd : side.getD BufferSide.first <;>
    simp [StreamBuffer.consumeN, hsd]

/-- C5: querying `consumeN` for a stream kind never started in the session
fails with `StreamNotStarted`, while the same query issued after
`start(positioning)` followed by `stop(positioning)` returns an empty
sequence rather than an error. -/
theorem consumeN_never_started_vs_stopped :
    freshSession.consumeN DataStream.positioning none none
        = Except.error TittaError.streamNotStarted ∧
    (((freshSession.start DataStream.positioning none).stop
          DataStream.positioning none).consumeN
        DataStream.positioning none none).map Prod.fst
      = Except.ok [] := by
  constructor
  · rfl
  · rfl

/-- C4: `consumeTimeRange` and `peekTimeRange` invoked for the
`positioning` stream kind always fail with an error regardless of session
state, while `consumeN` and `peekN` for `positioning` are dispatched
normally and succeed whenever the positioning buffer exists: time-range
queries exclude positioning but N-based queries allow it. -/
theorem positioning_time_range_excluded (s : Session) (ts te : Option Int)
    (n : Option Nat) (b : StreamBuffer)
    (h : s.buffers DataStream.positioning = some b) :
    mexConsumeTimeRange s DataStream.positioning ts te
        = Except.error TittaError.timeRangeOnPositioning ∧
    mexPeekTimeRange s DataStream.positioning ts te
        = Except.error TittaError.timeRangeOnPositioning ∧
    (∃ r s', mexConsumeN s DataStream.positioning n none = Except.ok (r, s')) ∧
    (∃ r, mexPeekN s DataStream.positioning n none = Except.ok r) := by
  refine ⟨rfl, rfl, ?_, ?_⟩
  · exact ⟨(b.consumeN n none).1,
      { s with buffers := fun d =>
          if d = DataStream.positioning then some (b.consumeN n none).2
          else s.buffers d },
      by simp [mexConsumeN, Session.consumeN, h]⟩
  · exact ⟨b.peekN n none, by simp [mexPeekN, Session.peekN, h]⟩

/-- C4 witness: at a session where the positioning stream was started. -/
theorem positioning_time_range_excluded_witness :
    (freshSession.start DataStream.positioning none).buffers
        DataStream.positioning = some (StreamBuffer.mk none []) ∧
    (mexConsumeTimeRange (freshSession.start DataStream.positioning none)
          DataStream.positioning none none
        = Except.error TittaError.timeRangeOnPositioning ∧
      mexPeekTimeRange (freshSession.start DataStream.positioning none)
          DataStream.positioning none none
        = Except.error TittaError.timeRangeOnPositioning ∧
      (∃ r s', mexConsumeN (freshSession.start DataStream.positioning none)
          DataStream.positioning none none = Except.ok (r, s')) ∧
      (∃ r, mexPeekN (freshSession.start DataStream.positioning none)
          DataStream.positioning none none = Except.ok r)) :=
  ⟨rfl, positioning_time_range_excluded
    (freshSession.start DataStream.positioning none) none none none
    (StreamBuffer.mk none []) rfl⟩

/-- C9: the buffer-side tokens accepted by N-count operations are exactly
`first` and `last`; any other token fails with `UnknownBufferSide`, and the
N-count action then errors out before any buffer is touched (the error
result carries no updated session, so no state change occurs). -/
theorem buffer_side_tokens (s : Session) (ds : DataStream) (n : Option Nat)
    (str : String) (h1 : str ≠ "first") (h2 : str ≠ "last") :
    stringToBufferSide "first" = Except.ok BufferSide.first ∧
    stringToBufferSide "last" = Except.ok BufferSide.last ∧
    stringToBufferSide str = Except.error TittaError.unknownBufferSide ∧
    mexConsumeN s ds n (some str) = Except.error TittaError.unknownBufferSide ∧
    mexPeekN s ds n (some str) = Except.error TittaError.unknownBufferSide := by
  refine ⟨rfl, rfl, ?_, ?_, ?_⟩ <;>
    simp [stringToBufferSide, mexConsumeN, mexPeekN, h1, h2]

/-- C9 witness: the token `oldest` is rejected. -/
theorem buffer_side_tokens_witness :
    stringToBufferSide "first" = Except.ok BufferSide.first ∧
    stringToBufferSide "last" = Except.ok BufferSide.last ∧
    stringToBufferSide "oldest" = Except.error TittaError.unknownBufferSide ∧
    mexConsumeN freshSession DataStream.gaze none (some "oldest")
      = Except.error TittaError.unknownBufferSide ∧
    mexPeekN freshSession DataStream.gaze none (some "oldest")
      = Except.error TittaError.unknownBufferSide :=
  buffer_side_tokens freshSession DataStream.gaze none "oldest"
    (by decide) (by decide)

/-- C10: marshaling any non-empty eye-image batch whose first frame is not
8 bits per pixel (`bits_per_pixel + padding_per_pixel ≠ 8`) raises the
synchronous error `non-8bit images not implemented` instead of returning
image data. -/
theorem non_8bit_images_rejected (d0 : EyeImage) (rest : List EyeImage)
    (h : d0.bits_per_pixel + d0.padding_per_pixel ≠ 8) :
    eyeImagesToMatlab (d0 :: rest)
      = Except.error "Titta: eyeImagesToMatlab: non-8bit images not implemented" := by
  simp [eyeImagesToMatlab, h]

/-- C10 witness: a single 24-bits-per-pixel frame is rejected. -/
theorem non_8bit_images_rejected_witness :
    eyeImagesToMatlab [EyeImage.mk 24 0 2 2 12 [1, 2, 3]]
      = Except.error "Titta: eyeImagesToMatlab: non-8bit images not implemented" :=
  non_8bit_images_rejected (EyeImage.mk 24 0 2 2 12 [1, 2, 3]) [] (by decide)

/-- C8: every notification record built from its tagged payload has at most
one of its three optional payloads populated, and the marshaler's `value`
field comes from at most one payload: it is empty whenever none is
populated, and whenever it carries a payload value that optional payload is
the populated one. -/
theorem notification_single_payload :
    (∀ (α β γ : Type) (ts : Int) (tag : Nat) (p : NotificationPayload α β γ),
      (mkNotification ts tag p).payloadCount ≤ 1) ∧
    (∀ (α β γ : Type) (n : Notification α β γ), n.payloadCount = 0 →
      marshalNotificationValue n = NotificationValue.emptyValue) ∧
    (∀ (α β γ : Type) (n : Notification α β γ) (v : α),
      marshalNotificationValue n = NotificationValue.outputFrequency v →
      n.output_frequency = some v) ∧
    (∀ (α β γ : Type) (n : Notification α β γ) (v : β),
      marshalNotificationValue n = NotificationValue.displayArea v →
      n.display_area = some v) ∧
    (∀ (α β γ : Type) (n : Notification α β γ) (v : γ),
      marshalNotificationValue n = NotificationValue.errorsOrWarnings v →
      n.errors_or_warnings = some v) := by
  refine ⟨?_, ?_, ?_, ?_, ?_⟩
  · intro α β γ ts tag p
    cases p <;> simp [mkNotification, Notification.payloadCount]
  · intro α β γ n h
    obtain ⟨ts, tag, fo, da, ew⟩ := n
    cases fo <;> cases da <;> cases ew <;>
      simp_all [Notification.payloadCount, marshalNotificationValue]
  · intro α β γ n v h
    obtain ⟨ts, tag, fo, da, ew⟩ := n
    cases fo <;> cases da <;> cases ew <;>
      simp_all [marshalNotificationValue]
  · intro α β γ n v h
    obtain ⟨ts, tag, fo, da, ew⟩ := n
    cases fo <;> cases da <;> cases ew <;>
      simp_all [marshalNotificationValue]
  · intro α β γ n v h
    obtain ⟨ts, tag, fo, da, ew⟩ := n
    cases fo <;> cases da <;> cases ew <;>
      simp_all [marshalNotificationValue]

/-- C8 witness: a display-area notification has one payload populated, and
a payload-free notification marshals to an empty value. -/
theorem notification_single_payload_witness :
    (mkNotification 7 3
        (NotificationPayload.displayArea 5 : NotificationPayload Int Int Int)).payloadCount ≤ 1 ∧
    marshalNotificationValue (Notification.mk 7 3 none none none : Notification Int Int Int)
      = NotificationValue.emptyValue :=
  ⟨notification_single_payload.1 Int Int Int 7 3
      (NotificationPayload.displayArea 5),
    notification_single_payload.2.1 Int Int Int
      (Notification.mk 7 3 none none none) rfl⟩

/-- Extracting block `i` of a concatenation of equal-length blocks yields
block `i`. -/
theorem flatten_block_extract (sz : Nat) (ls : List (List Nat))
    (h : ∀ l ∈ ls, l.length = sz) :
    ∀ (i : Nat) (hi : i < ls.length),
      (ls.flatten.drop (i * sz)).take sz = ls.get ⟨i, hi⟩ := by
  induction ls with
  | nil => intro i hi; simp at hi
  | cons l ls ih =>
    intro i hi
    cases i with
    | zero =>
      have hl : l.length = sz := h l (List.mem_cons_self _ _)
      simp only [List.flatten_cons, Nat.zero_mul, List.drop_zero, List.get]
      rw [← hl, List.take_left]
    | succ i =>
      have hl : l.length = sz := h l (List.mem_cons_self _ _)
      have h2 : (i + 1) * sz = l.length + i * sz := by rw [hl]; ring
      rw [List.flatten_cons, h2, List.drop_append]
      exact ih (fun l' hl' => h l' (List.mem_cons_of_mem _ hl')) i
        (Nat.lt_of_succ_lt_succ hi)

/-- A frame's copied blob has exactly `data_size` bytes whenever its byte
store holds at least `data_size` bytes. -/
theorem copiedBytes_length (f : EyeImage)
    (h : f.data_size ≤ f.imgData.length) :
    f.copiedBytes.length = f.data_size := by
  simp [EyeImage.copiedBytes, Nat.min_eq_left h]

/-- C7: for a non-empty 8-bits-per-pixel eye-image batch (each frame's byte
store holding its declared `data_size` bytes), if every frame has the first
frame's data size then marshaling packs all frames into one
`width*height × n` matrix whose byte block `i` (at offset `i*data_size`) is
exactly frame `i`'s bytes, in batch order; if the batch mixes sizes, the
result is instead a cell array of one independently-sized blob per frame,
in the same order. -/
theorem eye_image_batch_marshaling (d0 : EyeImage) (rest : List EyeImage)
    (h8 : d0.bits_per_pixel + d0.padding_per_pixel = 8)
    (hwf : ∀ f ∈ d0 :: rest, f.data_size ≤ f.imgData.length) :
    (((d0 :: rest).all fun f => f.data_size = d0.data_size) = true →
      ∃ bytes,
        eyeImagesToMatlab (d0 :: rest)
          = Except.ok (ImageOut.packedMatrix (d0.width * d0.height)
              (d0 :: rest).length bytes) ∧
        ∀ (i : Nat) (hi : i < (d0 :: rest).length),
          (bytes.drop (i * d0.data_size)).take d0.data_size
            = ((d0 :: rest).get ⟨i, hi⟩).copiedBytes) ∧
    (((d0 :: rest).all fun f => f.data_size = d0.data_size) = false →
      eyeImagesToMatlab (d0 :: rest)
        = Except.ok (ImageOut.cellBlobs
            ((d0 :: rest).map EyeImage.copiedBytes))) := by
  constructor
  · intro hsame
    refine ⟨((d0 :: rest).map EyeImage.copiedBytes).flatten, ?_, ?_⟩
    · simp [eyeImagesToMatlab, h8, hsame]
    · intro i hi
      have hlens : ∀ l ∈ (d0 :: rest).map EyeImage.copiedBytes,
          l.length = d0.data_size := by
        intro l hl
        obtain ⟨f, hf, rfl⟩ := List.mem_map.mp hl
        have hsz : f.data_size = d0.data_size :=
          of_decide_eq_true (List.all_eq_true.mp hsame f hf)
        rw [copiedBytes_length f (hwf f hf), hsz]
      have hext := flatten_block_extract d0.data_size
        ((d0 :: rest).map EyeImage.copiedBytes) hlens i (by simpa using hi)
      rw [hext]
      simp only [List.get_eq_getElem, List.getElem_map]
  · intro hdiff
    simp [eyeImagesToMatlab, h8, hdiff]

/-- C7 witness: a same-sized two-frame batch is packed into one matrix, and
a mixed-size two-frame batch becomes per-frame blobs. -/
theorem eye_image_batch_marshaling_witness :
    (∃ bytes,
      eyeImagesToMatlab
          [EyeImage.mk 8 0 2 1 2 [10, 20], EyeImage.mk 8 0 2 1 2 [30, 40]]
        = Except.ok (ImageOut.packedMatrix 2 2 bytes) ∧
      ∀ (i : Nat)
        (hi : i < ([EyeImage.mk 8 0 2 1 2 [10, 20],
          EyeImage.mk 8 0 2 1 2 [30, 40]] : List EyeImage).length),
        (bytes.drop (i * 2)).take 2
          = (([EyeImage.mk 8 0 2 1 2 [10, 20],
              EyeImage.mk 8 0 2 1 2 [30, 40]] : List EyeImage).get
                ⟨i, hi⟩).copiedBytes) ∧
    eyeImagesToMatlab
        [EyeImage.mk 8 0 2 1 2 [10, 20], EyeImage.mk 8 0 1 1 1 [30]]
      = Except.ok (ImageOut.cellBlobs [[10, 20], [30]]) := by
  constructor
  · exact (eye_image_batch_marshaling (EyeImage.mk 8 0 2 1 2 [10, 20])
      [EyeImage.mk 8 0 2 1 2 [30, 40]] (by decide) (by decide)).1 (by decide)
  · have := (eye_image_batch_marshaling (EyeImage.mk 8 0 2 1 2 [10, 20])
      [EyeImage.mk 8 0 1 1 1 [30]] (by decide) (by decide)).2 (by decide)
    simpa [EyeImage.copiedBytes] using this

/-- `stepOp` never changes the capacity bound of the buffer. -/
theorem stepOp_maxSize (s : RunState) (op : BufOp)
    (h : s.buf.maxSize = none) : (stepOp s op).buf.maxSize = none := by
  cases op with
  | append r => simp [stepOp, StreamBuffer.append, h]
  | consumeN n side =>
      cases hsd : side.getD BufferSide.first <;>
        simp [stepOp, StreamBuffer.consumeN, hsd, h]
  | consumeTimeRange ts te => simp [stepOp, StreamBuffer.consumeTimeRange, h]

/-- Surrounding a permutation with a common prefix and suffix preserves
it. -/
theorem perm_mid (O A X B : List Sample) (hx : X.Perm B) :
    (O ++ X ++ A).Perm (O ++ B ++ A) :=
  (hx.append_left O).append_right A

/-- Conservation along a trace on an unbounded buffer: the multiset of all
consumed batches plus the remaining buffer contents equals the starting
contents plus everything appended. -/
theorem runOps_conservation (ops : List BufOp) :
    ∀ (s : RunState), s.buf.maxSize = none →
      ((runOps s ops).out.flatten ++ (runOps s ops).buf.buf).Perm
        (s.out.flatten ++ s.buf.buf ++ appendedRecs ops) := by
  induction ops with
  | nil => intro s _; simp [runOps, appendedRecs]
  | cons op rest ih =>
    intro s h
    have hrun : runOps s (op :: rest) = runOps (stepOp s op) rest := rfl
    rw [hrun]
    refine (ih (stepOp s op) (stepOp_maxSize s op h)).trans ?_
    cases op with
    | append r =>
        have heq :
            (stepOp s (BufOp.append r)).out.flatten ++
                (stepOp s (BufOp.append r)).buf.buf ++ appendedRecs rest
              = s.out.flatten ++ s.buf.buf ++ appendedRecs (BufOp.append r :: rest) := by
          simp [stepOp, StreamBuffer.append, h, appendedRecs]
        rw [heq]
    | consumeN n side =>
        have hx : (s.buf.consumeN n side).1 ++ (s.buf.consumeN n side).2.buf
            |>.Perm s.buf.buf := by
          cases hsd : side.getD BufferSide.first with
          | first =>
              simp only [StreamBuffer.consumeN, hsd]
              rw [List.take_append_drop]
          | last =>
              simp only [StreamBuffer.consumeN, hsd]
              exact List.perm_append_comm.trans
                (by rw [List.take_append_drop])
        have heq :
            (stepOp s (BufOp.consumeN n side)).out.flatten ++
                (stepOp s (BufOp.consumeN n side)).buf.buf ++ appendedRecs rest
              = s.out.flatten ++
                  ((s.buf.consumeN n side).1 ++ (s.buf.consumeN n side).2.buf) ++
                  appendedRecs rest := by
          simp [stepOp, appendedRecs]
        rw [heq,
          show s.out.flatten ++ s.buf.buf ++ appendedRecs (BufOp.consumeN n side :: rest)
            = s.out.flatten ++ s.buf.buf ++ appendedRecs rest from by
              simp [appendedRecs]]
        exact perm_mid _ _ _ _ hx
    | consumeTimeRange ts te =>
        have hx : (s.buf.consumeTimeRange ts te).1 ++
            (s.buf.consumeTimeRange ts te).2.buf |>.Perm s.buf.buf := by
          simp only [StreamBuffer.consumeTimeRange]
          exact List.filter_append_perm _ s.buf.buf
        have heq :
            (stepOp s (BufOp.consumeTimeRange ts te)).out.flatten ++
                (stepOp s (BufOp.consumeTimeRange ts te)).buf.buf ++ appendedRecs rest
              = s.out.flatten ++
                  ((s.buf.consumeTimeRange ts te).1 ++
                    (s.buf.consumeTimeRange ts te).2.buf) ++
                  appendedRecs rest := by
          simp [stepOp, appendedRecs]
        rw [heq,
          show s.out.flatten ++ s.buf.buf ++ appendedRecs (BufOp.consumeTimeRange ts te :: rest)
            = s.out.flatten ++ s.buf.buf ++ appendedRecs rest from by
              simp [appendedRecs]]
        exact perm_mid _ _ _ _ hx

/-- C1 (amended): for every finite trace of interleaved `append`,
`consumeN` and `consumeTimeRange` operations on a single *unbounded*
Stream Buffer, the records returned by the consume calls together with the
records still in the buffer are, as a multiset, exactly the initial
contents plus every appended record — no record is lost, returned twice, or
both returned and retained.  (For a capacity-bounded buffer, eviction on
append drops the oldest record without returning it; see the
counterexample.) -/
theorem unbounded_buffer_no_loss_no_duplication (b : StreamBuffer)
    (hb : b.maxSize = none) (ops : List BufOp) :
    ((runOps (RunState.mk b []) ops).out.flatten ++
        (runOps (RunState.mk b []) ops).buf.buf).Perm
      (b.buf ++ appendedRecs ops) := by
  have h := runOps_conservation ops (RunState.mk b []) hb
  simpa using h

/-- C1 witness: one append followed by a draining consume on an initially
empty unbounded buffer conserves the appended record. -/
theorem unbounded_buffer_no_loss_no_duplication_witness :
    ((runOps (RunState.mk (StreamBuffer.mk none []) [])
          [BufOp.append ⟨0, 0⟩, BufOp.consumeN none none]).out.flatten ++
        (runOps (RunState.mk (StreamBuffer.mk none []) [])
          [BufOp.append ⟨0, 0⟩, BufOp.consumeN none none]).buf.buf).Perm
      ((StreamBuffer.mk none []).buf ++
        appendedRecs [BufOp.append ⟨0, 0⟩, BufOp.consumeN none none]) :=
  unbounded_buffer_no_loss_no_duplication (StreamBuffer.mk none []) rfl
    [BufOp.append ⟨0, 0⟩, BufOp.consumeN none none]

/-- C1 counterexample: on a capacity-bounded buffer of size 1, appending
record ⟨0,0⟩ and then record ⟨1,0⟩ evicts ⟨0,0⟩ — it was appended, is
returned by no consume call, and is no longer in the buffer, so the claim's
unqualified "no record is ever lost" fails for bounded buffers. -/
theorem bounded_buffer_loses_evicted_record :
    (⟨0, 0⟩ : Sample) ∈
        appendedRecs [BufOp.append ⟨0, 0⟩, BufOp.append ⟨1, 0⟩] ∧
    (⟨0, 0⟩ : Sample) ∉
        (runOps (RunState.mk (StreamBuffer.mk (some 1) []) [])
          [BufOp.append ⟨0, 0⟩, BufOp.append ⟨1, 0⟩]).out.flatten ∧
    (⟨0, 0⟩ : Sample) ∉
        (runOps (RunState.mk (StreamBuffer.mk (some 1) []) [])
          [BufOp.append ⟨0, 0⟩, BufOp.append ⟨1, 0⟩]).buf.buf := by
  decide
